import Mathlib

/-!
Verification of the release engine of the clikd CLI against its
natural-language specification.

The definitions below are shallow embeddings of the Rust source:

* `src/core/release/commit_analyzer.rs` — bump recommendations and
  conventional-commit analysis;
* `src/core/release/manifest.rs` — the release manifest, its canonical
  signature payload, and HMAC-SHA256 signing;
* `src/core/ecosystem/elixir.rs` — the mix.exs version extraction and the
  rewriter content transformation;
* `src/core/github/client.rs` — the bounded-retry policy for GitHub calls;
* `src/core/release/config.rs` — configuration-file loading.

Machine integers are modelled as `Nat` with explicit reductions modulo
`2 ^ 32` where the Rust code relies on wrapping 32-bit arithmetic
(SHA-256); strings are Lean strings with an explicit UTF-8 byte encoding
where the Rust code operates on bytes.
-/

namespace Clikd

/-! ## Bump recommendations (commit_analyzer.rs) -/

/-- The four bump recommendations, as in `BumpRecommendation` of
`commit_analyzer.rs`. -/
inductive BumpRecommendation where
  | major
  | minor
  | patch
  | none
deriving DecidableEq, Repr

namespace BumpRecommendation

/-- Direct embedding of `BumpRecommendation::merge`: the first matching arm
of the Rust `match` on the pair. -/
def merge (a b : BumpRecommendation) : BumpRecommendation :=
  match a, b with
  | .major, _ => .major
  | _, .major => .major
  | .minor, _ => .minor
  | _, .minor => .minor
  | .patch, _ => .patch
  | _, .patch => .patch
  | .none, .none => .none

end BumpRecommendation

/-! ## Character-level string primitives

Rust string functions (`str::lines`, `str::trim`, `starts_with`,
`Vec::join`, ...) are modelled by structurally recursive functions over
the character list of a Lean string, so that every definition evaluates
inside the kernel. -/

/-- Split a character list at newline characters; like `String::split`,
a trailing newline yields a trailing empty piece. -/
def splitOnNl : List Char → List (List Char)
  | [] => [[]]
  | c :: rest =>
    let r := splitOnNl rest
    if c = Char.ofNat 10 then [] :: r
    else
      match r with
      | h :: t => (c :: h) :: t
      | [] => [[c]]

/-- Whitespace as `str::trim` recognizes it, on the characters the
repository's files use. -/
def isWsChar (c : Char) : Bool :=
  c = Char.ofNat 32 ∨ c = Char.ofNat 9 ∨ c = Char.ofNat 13 ∨ c = Char.ofNat 10

/-- Model of `str::trim`: drop whitespace at both ends. -/
def trimChars (l : List Char) : List Char :=
  ((l.dropWhile isWsChar).reverse.dropWhile isWsChar).reverse

/-- Model of `str::starts_with` on character lists. -/
def startsWithChars (p l : List Char) : Bool :=
  List.isPrefixOf p l

/-- Model of `Vec::join` / `format!` interpolation of a separated list. -/
def joinWith (sep : String) : List String → String
  | [] => ""
  | [x] => x
  | x :: y :: rest => x ++ sep ++ joinWith sep (y :: rest)

/-! ## Release manifest (manifest.rs) -/

/-- The constant `SCHEMA_VERSION` of manifest.rs. -/
def SCHEMA_VERSION : String := "1.0"

/-- Embedding of `ProjectRelease` from manifest.rs. -/
structure ProjectRelease where
  name : String
  ecosystem : String
  previous_version : String
  new_version : String
  bump_type : String
  changelog : String
  tag_name : String
  prefix_ : String
deriving DecidableEq, Repr

/-- Embedding of `ProjectRelease::new`: the tag name is derived from the
prefix and the new version, all other fields are stored as passed. -/
def ProjectRelease.new (name ecosystem previous_version new_version
    bump_type changelog prefix_ : String) : ProjectRelease :=
  let tag_name :=
    if prefix_.isEmpty then "v" ++ new_version
    else prefix_ ++ "/v" ++ new_version
  { name := name
    ecosystem := ecosystem
    previous_version := previous_version
    new_version := new_version
    bump_type := bump_type
    changelog := changelog
    tag_name := tag_name
    prefix_ := prefix_ }

/-- Embedding of `ReleaseManifest` from manifest.rs. -/
structure ReleaseManifest where
  schema_version : String
  created_at : String
  created_by : String
  base_branch : String
  releases : List ProjectRelease
  signature : Option String
deriving DecidableEq, Repr

/-- Embedding of `ReleaseManifest::new`: the timestamp is produced by the
clock, so it is a parameter here; the schema version is the constant and
the signature starts out absent. -/
def ReleaseManifest.new (base_branch created_by created_at : String) :
    ReleaseManifest :=
  { schema_version := SCHEMA_VERSION
    created_at := created_at
    created_by := created_by
    base_branch := base_branch
    releases := []
    signature := Option.none }

/-- Embedding of `ReleaseManifest::add_release`. -/
def ReleaseManifest.add_release (m : ReleaseManifest) (r : ProjectRelease) :
    ReleaseManifest :=
  { m with releases := m.releases ++ [r] }

/-- Embedding of `ReleaseManifest::signature_payload`: the canonical
five-part colon-separated payload, the last part being the comma-joined
`name@new_version` list over the release entries. -/
def ReleaseManifest.signature_payload (m : ReleaseManifest) : String :=
  m.schema_version ++ ":" ++ m.created_at ++ ":" ++ m.created_by ++ ":" ++
    m.base_branch ++ ":" ++
    joinWith "," (m.releases.map (fun r => r.name ++ "@" ++ r.new_version))

/-- The canonical payload as the spec words it: the colon-separated join,
in fixed order, of the schema version, the creation timestamp, the
author, the base branch, and the comma-joined `name@new_version` list
over the release entries. -/
def specCanonicalPayload (m : ReleaseManifest) : String :=
  joinWith ":"
    [m.schema_version, m.created_at, m.created_by, m.base_branch,
     joinWith "," (m.releases.map (fun r => r.name ++ "@" ++ r.new_version))]

/-! ## Conventional-commit parsing and analysis (commit_analyzer.rs) -/

/-- A parsed conventional commit: declared type, optional scope, a bang
marker before the colon, a breaking-change footer marker, and the
description. -/
structure ConventionalCommit where
  ctype : String
  scope : Option String
  bang : Bool
  footerBreaking : Bool
  description : String
deriving DecidableEq, Repr

/-- Characters allowed in a conventional-commit type token. -/
def isTypeChar (c : Char) : Bool := c.isAlphanum

/-- Parse the part of the header before the colon: an optional trailing
bang, an optional parenthesized scope, and the type token. -/
def parsePreColon (pre : List Char) :
    Option (String × Option String × Bool) :=
  let bang := pre.getLast? = some (Char.ofNat 33)
  let core := if bang then pre.dropLast else pre
  let t := core.takeWhile (fun c => c ≠ Char.ofNat 40)
  let rest := core.drop t.length
  if t.isEmpty ∨ ¬ t.all isTypeChar then Option.none
  else
    match rest with
    | [] => Option.some (String.mk t, Option.none, bang)
    | o :: inner =>
      if o = Char.ofNat 40 ∧ inner.getLast? = some (Char.ofNat 41) then
        let sc := inner.dropLast
        if sc.isEmpty ∨ sc.any (fun c => c = Char.ofNat 40 ∨ c = Char.ofNat 41)
        then Option.none
        else Option.some (String.mk t, Option.some (String.mk sc), bang)
      else Option.none

/-- Modelled from the spec: parsing by the external git-conventional crate,
which is not part of this repository. Per the glossary, a conventional
commit has a structured header of the form type, optional parenthesized
scope, optional bang, a colon and a space, then a nonempty description;
an optional breaking-change footer line starts with the token
BREAKING CHANGE or BREAKING-CHANGE followed by a colon and a space.
Parsing fails (returns none) when the header does not have this shape. -/
def ConventionalCommit.parse (msg : String) : Option ConventionalCommit :=
  match splitOnNl msg.data with
  | [] => Option.none
  | header :: body =>
    let pre := header.takeWhile (fun c => c ≠ Char.ofNat 58)
    let rest := header.drop pre.length
    match rest with
    | [] => Option.none
    | _colon :: after =>
      match after with
      | [] => Option.none
      | sp :: descChars =>
        if sp ≠ ' ' ∨ trimChars descChars = [] then Option.none
        else
          match parsePreColon pre with
          | Option.none => Option.none
          | Option.some (t, sc, bang) =>
            let fb := body.any (fun line =>
              startsWithChars ("BREAKING CHANGE: ").data line ∨
              startsWithChars ("BREAKING-CHANGE: ").data line)
            Option.some
              { ctype := t
                scope := sc
                bang := bang
                footerBreaking := fb
                description := String.mk (trimChars descChars) }

/-- Embedding of git-conventional `Commit::breaking`: a bang before the
colon or a breaking-change footer. -/
def ConventionalCommit.breaking (c : ConventionalCommit) : Bool :=
  c.bang || c.footerBreaking

/-- Embedding of `CommitAnalysis` from commit_analyzer.rs. -/
structure CommitAnalysis where
  recommendation : BumpRecommendation
  total_commits : Nat
  feat_count : Nat
  fix_count : Nat
  breaking_count : Nat
  other_count : Nat
deriving DecidableEq, Repr

/-- One iteration of the loop body of `analyze_commit_messages`: classify
one message, update the counters, and merge the per-commit recommendation
into the running one. Note that the source counts `perf` commits in
`fix_count`. -/
def analyzeStep (a : CommitAnalysis) (message : String) : CommitAnalysis :=
  match ConventionalCommit.parse message with
  | Option.some commit =>
    if commit.breaking then
      { a with
        breaking_count := a.breaking_count + 1
        recommendation := a.recommendation.merge .major }
    else if commit.ctype = "feat" then
      { a with
        feat_count := a.feat_count + 1
        recommendation := a.recommendation.merge .minor }
    else if commit.ctype = "fix" then
      { a with
        fix_count := a.fix_count + 1
        recommendation := a.recommendation.merge .patch }
    else if commit.ctype = "perf" then
      { a with
        fix_count := a.fix_count + 1
        recommendation := a.recommendation.merge .patch }
    else
      { a with
        other_count := a.other_count + 1
        recommendation := a.recommendation.merge .none }
  | Option.none =>
    { a with
      other_count := a.other_count + 1
      recommendation := a.recommendation.merge .none }

/-- Embedding of `analyze_commit_messages`: fold the loop body over the
messages starting from the all-zero analysis whose total is the number of
messages; the Rust function wraps the result in `Ok` unconditionally, its
`Result` type notwithstanding. -/
def analyze_commit_messages (messages : List String) :
    Except String CommitAnalysis :=
  .ok (messages.foldl analyzeStep
    { recommendation := .none
      total_commits := messages.length
      feat_count := 0
      fix_count := 0
      breaking_count := 0
      other_count := 0 })

/-- The per-commit classification as the claim states it: Major on a
breaking marker regardless of type, else Minor for feat, Patch for fix or
perf, None for everything else including parse failures. -/
def claimClassify (message : String) : BumpRecommendation :=
  match ConventionalCommit.parse message with
  | Option.none => .none
  | Option.some commit =>
    if commit.breaking then .major
    else if commit.ctype = "feat" then .minor
    else if commit.ctype = "fix" ∨ commit.ctype = "perf" then .patch
    else .none

/-! ## Bytes, SHA-256 and HMAC (the hmac/sha2/hex crates used by
manifest.rs), over `Nat` with explicit reduction modulo `2 ^ 32`. -/

/-- UTF-8 encoding of one character, as the byte values of the standard
encoding of its scalar value. -/
def utf8Bytes (c : Char) : List Nat :=
  let n := c.toNat
  if n < 128 then [n]
  else if n < 2048 then [192 + n / 64, 128 + n % 64]
  else if n < 65536 then
    [224 + n / 4096, 128 + (n / 64) % 64, 128 + n % 64]
  else
    [240 + n / 262144, 128 + (n / 4096) % 64, 128 + (n / 64) % 64,
      128 + n % 64]

/-- The UTF-8 bytes of a string, matching what `str::as_bytes` yields in
the Rust source. -/
def strBytes (s : String) : List Nat :=
  (s.data.map utf8Bytes).flatten

/-- Reduction to a 32-bit word. -/
def w32 (n : Nat) : Nat := n % 4294967296

/-- Right rotation of a 32-bit word. -/
def rotr (n x : Nat) : Nat := w32 ((x >>> n) ||| (x <<< (32 - n)))

/-- Bitwise complement of a 32-bit word. -/
def notW (x : Nat) : Nat := 4294967295 - w32 x

/-- The SHA-256 choice function. -/
def chW (x y z : Nat) : Nat := (x &&& y) ^^^ (notW x &&& z)

/-- The SHA-256 majority function. -/
def majW (x y z : Nat) : Nat := (x &&& y) ^^^ (x &&& z) ^^^ (y &&& z)

/-- The SHA-256 small sigma-0 function. -/
def ssig0 (x : Nat) : Nat := rotr 7 x ^^^ rotr 18 x ^^^ (x >>> 3)

/-- The SHA-256 small sigma-1 function. -/
def ssig1 (x : Nat) : Nat := rotr 17 x ^^^ rotr 19 x ^^^ (x >>> 10)

/-- The SHA-256 big sigma-0 function. -/
def bsig0 (x : Nat) : Nat := rotr 2 x ^^^ rotr 13 x ^^^ rotr 22 x

/-- The SHA-256 big sigma-1 function. -/
def bsig1 (x : Nat) : Nat := rotr 6 x ^^^ rotr 11 x ^^^ rotr 25 x

/-- The SHA-256 initial hash state. -/
def shaInit : List Nat :=
  [1779033703, 3144134277, 1013904242, 2773480762,
   1359893119, 2600822924, 528734635, 1541459225]

/-- The 64 SHA-256 round constants. -/
def shaK : List Nat :=
  [1116352408, 1899447441, 3049323471, 3921009573,
   961987163, 1508970993, 2453635748, 2870763221,
   3624381080, 310598401, 607225278, 1426881987,
   1925078388, 2162078206, 2614888103, 3248222580,
   3835390401, 4022224774, 264347078, 604807628,
   770255983, 1249150122, 1555081692, 1996064986,
   2554220882, 2821834349, 2952996808, 3210313671,
   3336571891, 3584528711, 113926993, 338241895,
   666307205, 773529912, 1294757372, 1396182291,
   1695183700, 1986661051, 2177026350, 2456956037,
   2730485921, 2820302411, 3259730800, 3345764771,
   3516065817, 3600352804, 4094571909, 275423344,
   430227734, 506948616, 659060556, 883997877,
   958139571, 1322822218, 1537002063, 1747873779,
   1955562222, 2024104815, 2227730452, 2361852424,
   2428436474, 2756734187, 3204031479, 3329325298]

/-- Big-endian byte expansion of a number into `k` bytes. -/
def natToBytesBE : Nat → Nat → List Nat
  | 0, _ => []
  | k + 1, n => n / 256 ^ k % 256 :: natToBytesBE k n

/-- Group a big-endian byte list into 32-bit words, four bytes per word. -/
def bytesToWords : List Nat → List Nat
  | b0 :: b1 :: b2 :: b3 :: rest =>
    (((b0 * 256 + b1) * 256 + b2) * 256 + b3) :: bytesToWords rest
  | _ => []

/-- SHA-256 padding: a single 128 byte, zeros up to 56 modulo 64, then the
bit length in eight big-endian bytes. -/
def shaPad (msg : List Nat) : List Nat :=
  let padLen := (119 - msg.length % 64) % 64
  msg ++ 128 :: List.replicate padLen 0 ++ natToBytesBE 8 (msg.length * 8)

/-- Split a byte list into 64-byte blocks, with a structural fuel argument
so that the kernel can evaluate it. -/
def chunks64F : Nat → List Nat → List (List Nat)
  | 0, _ => []
  | _, [] => []
  | fuel + 1, a :: rest =>
    (a :: rest).take 64 :: chunks64F fuel ((a :: rest).drop 64)

/-- Split a byte list into 64-byte blocks. -/
def chunks64 (l : List Nat) : List (List Nat) := chunks64F l.length l

/-- Extend the 16-word message schedule by `n` further words. -/
def extendW (acc : List Nat) : Nat → List Nat
  | 0 => acc
  | n + 1 =>
    let l := acc.length
    let w := w32 (acc.getD (l - 16) 0 + ssig0 (acc.getD (l - 15) 0) +
      acc.getD (l - 7) 0 + ssig1 (acc.getD (l - 2) 0))
    extendW (acc ++ [w]) n

/-- One SHA-256 round: the state is the eight working words, the input the
pair of a schedule word and a round constant. -/
def shaRound (st : List Nat) (wk : Nat × Nat) : List Nat :=
  match st with
  | [a, b, c, d, e, f, g, h] =>
    let t1 := w32 (h + bsig1 e + chW e f g + wk.2 + wk.1)
    let t2 := w32 (bsig0 a + majW a b c)
    [w32 (t1 + t2), a, b, c, w32 (d + t1), e, f, g]
  | other => other

/-- SHA-256 compression of one 64-byte block into the hash state. -/
def shaCompress (h : List Nat) (block : List Nat) : List Nat :=
  let ws := extendW (bytesToWords block) 48
  let st := (ws.zip shaK).foldl shaRound h
  (h.zip st).map (fun p => w32 (p.1 + p.2))

/-- SHA-256 of a byte list, as the 32 digest bytes. -/
def sha256 (msg : List Nat) : List Nat :=
  let h := (chunks64 (shaPad msg)).foldl shaCompress shaInit
  (h.map (natToBytesBE 4)).flatten

/-- HMAC key preparation: hash keys longer than the 64-byte block, then
right-pad with zero bytes to the block size. -/
def hmacKey (key : List Nat) : List Nat :=
  let k0 := if 64 < key.length then sha256 key else key
  k0 ++ List.replicate (64 - k0.length) 0

/-- HMAC-SHA256 of a message under a key. -/
def hmacSha256 (key msg : List Nat) : List Nat :=
  let kp := hmacKey key
  sha256 ((kp.map (fun b => b ^^^ 92)) ++
    sha256 ((kp.map (fun b => b ^^^ 54)) ++ msg))

/-- Lowercase hex digit for a value below 16. -/
def hexDigit (n : Nat) : Char :=
  if n < 10 then Char.ofNat (48 + n) else Char.ofNat (87 + n)

/-- Lowercase hex encoding of a byte list, as the hex crate produces. -/
def hexEncode (bs : List Nat) : String :=
  String.mk ((bs.map (fun b => [hexDigit (b / 16 % 16), hexDigit (b % 16)])).flatten)

/-- Embedding of `compute_hmac_signature` from manifest.rs. -/
def compute_hmac_signature (payload secret : String) : String :=
  "sha256=" ++ hexEncode (hmacSha256 (strBytes secret) (strBytes payload))

/-- Embedding of `ReleaseManifest::sign`: clear any stored signature, build
the canonical payload, and store the HMAC signature. The length check on
the secret in the source only emits a warning and does not alter the
result. -/
def ReleaseManifest.sign (m : ReleaseManifest) (secret : String) :
    ReleaseManifest :=
  let cleared := { m with signature := Option.none }
  { cleared with
    signature := Option.some
      (compute_hmac_signature cleared.signature_payload secret) }

/-! ## The mix.exs loader and rewriter (ecosystem/elixir.rs) and the
go.mod rewriter (ecosystem/go.rs).

File I/O is abstracted away: the functions below map the file content
read at the start of the Rust function to the content written back by the
atomic write at its end. The only `Err` arms in the source wrap I/O
failures of open, read or the atomic write, so the pure content
transformation has no error case. -/

/-- Rust `str::lines` on a character list: split at newlines, drop the
trailing empty piece produced by a final newline, and strip one trailing
carriage return from each line. -/
def rustLinesC (l : List Char) : List (List Char) :=
  let parts := splitOnNl l
  let parts := if parts.getLast? = some [] then parts.dropLast else parts
  parts.map (fun ln =>
    if ln.getLast? = some (Char.ofNat 13) then ln.dropLast else ln)

/-- Rust `str::lines` of a string. -/
def rustLines (s : String) : List String :=
  (rustLinesC s.data).map String.mk

/-- The inner extraction step of `ElixirLoader::extract_version` on one
trimmed line already known to start with `version:`: take what follows the
colon, trim it, require an opening double quote, and take up to the
closing double quote. -/
def extractVersionFromLine (trimmed : List Char) : Option String :=
  match trimChars (trimmed.drop 8) with
  | q :: vp2 =>
    if q = Char.ofNat 34 then
      let upto := vp2.takeWhile (fun c => c ≠ Char.ofNat 34)
      if upto.length < vp2.length then Option.some (String.mk upto)
      else Option.none
    else Option.none
  | [] => Option.none

/-- Embedding of `ElixirLoader::extract_version`: the first line whose trim
starts with `version:` and carries a double-quoted value yields that value;
otherwise the scan continues, and `none` results when no line matches. -/
def extract_version (contents : String) : Option String :=
  (rustLinesC contents.data).findSome? (fun line =>
    if startsWithChars ("version:").data (trimChars line) then
      extractVersionFromLine (trimChars line)
    else Option.none)

/-- One line of the `MixExsRewriter::rewrite` loop: a line whose trim
starts with `version:` is replaced by its leading whitespace followed by a
normalized quoted version assignment with a trailing comma; every other
line is passed through with a newline appended. -/
def mixRewriteLine (new_version : String) (line : List Char) : List Char :=
  if startsWithChars ("version:").data (trimChars line) then
    line.takeWhile isWsChar ++ ("version: ").data ++
      Char.ofNat 34 :: new_version.data ++
      [Char.ofNat 34, Char.ofNat 44, Char.ofNat 10]
  else line ++ [Char.ofNat 10]

/-- Embedding of the content transformation of `MixExsRewriter::rewrite`:
the concatenation of the per-line results over the lines of the file. -/
def mixRewriteContent (new_version contents : String) : String :=
  String.mk (((rustLinesC contents.data).map (mixRewriteLine new_version)).flatten)

/-- Embedding of `MixExsRewriter::rewrite` as a fallible operation, as its
Rust `Result` type: the source returns `Ok` whenever open, read and the
atomic write succeed, with no check that a version line was found. -/
def mixRewrite (new_version contents : String) : Except String String :=
  .ok (mixRewriteContent new_version contents)

/-- Embedding of the content transformation of `GoModRewriter::rewrite`:
every line is written back unchanged with a newline appended; go.mod files
carry no version field, so nothing is substituted. -/
def goModRewriteContent (contents : String) : String :=
  String.mk (((rustLinesC contents.data).map (fun line => line ++ [Char.ofNat 10])).flatten)

/-! ## GitHub client retry policy (github/client.rs) -/

/-- The constant `MAX_RETRIES`. -/
def MAX_RETRIES : Nat := 3

/-- The constant `INITIAL_BACKOFF_MS`. -/
def INITIAL_BACKOFF_MS : Nat := 1000

/-- The constant `MAX_BACKOFF_MS`. -/
def MAX_BACKOFF_MS : Nat := 30000

/-- Embedding of `is_retryable_status`: the fixed set of retryable HTTP
status codes. -/
def is_retryable_status (status : Nat) : Bool :=
  status = 429 ∨ status = 500 ∨ status = 502 ∨ status = 503 ∨ status = 504

/-- The `StatusCode::is_success` predicate of the reqwest crate: the 2xx
range. -/
def isSuccessStatus (status : Nat) : Bool := 200 ≤ status ∧ status ≤ 299

/-- Embedding of `calculate_backoff`, in milliseconds: exponential in the
attempt index, capped at `MAX_BACKOFF_MS`. -/
def calculate_backoff (attempt : Nat) (base_ms : Nat) : Nat :=
  min (base_ms * 2 ^ attempt) MAX_BACKOFF_MS

/-- An HTTP response as the retry logic observes it: a status code and the
parsed value of a retry-after header in seconds when present, as
`extract_retry_after` produces. -/
structure RetryResponse where
  status : Nat
  retryAfterSecs : Option Nat
deriving DecidableEq, Repr

/-- A transport-level error as classified by `is_retryable_error`. -/
structure TransportError where
  isTimeout : Bool
  isConnect : Bool
  isRequest : Bool
deriving DecidableEq, Repr

/-- Embedding of `is_retryable_error`. -/
def is_retryable_error (e : TransportError) : Bool :=
  e.isTimeout || e.isConnect || e.isRequest

/-- The outcome of one attempted send of the request. -/
inductive SendOutcome where
  | resp (r : RetryResponse)
  | err (e : TransportError)
deriving DecidableEq, Repr

/-- Embedding of `extract_retry_after` combined with the
`unwrap_or_else(calculate_backoff ...)` at the retry site: the
server-supplied retry-after value in milliseconds when present, the
computed backoff otherwise. -/
def backoffFor (r : RetryResponse) (attempt : Nat) : Nat :=
  match r.retryAfterSecs with
  | Option.some secs => secs * 1000
  | Option.none => calculate_backoff attempt INITIAL_BACKOFF_MS

/-- The loop of `send_with_retry`, as a recursion over the remaining
attempts; the network is a function from attempt index to outcome. The
result pairs the returned value with the list of sleep durations in
milliseconds, one per retry taken. The `fuel = 0` arm embeds the
unreachable fall-through after the loop, which builds a terminal error. -/
def sendWithRetryGo (outcomes : Nat → SendOutcome) (attempt : Nat) :
    Nat → Except TransportError RetryResponse × List Nat
  | 0 => (.error { isTimeout := false, isConnect := false, isRequest := false }, [])
  | fuel + 1 =>
    match outcomes attempt with
    | .resp r =>
      if isSuccessStatus r.status ∨ ¬ is_retryable_status r.status then
        (.ok r, [])
      else if attempt < MAX_RETRIES then
        let d := backoffFor r attempt
        let next := sendWithRetryGo outcomes (attempt + 1) fuel
        (next.1, d :: next.2)
      else (.ok r, [])
    | .err e =>
      if attempt < MAX_RETRIES ∧ is_retryable_error e then
        let d := calculate_backoff attempt INITIAL_BACKOFF_MS
        let next := sendWithRetryGo outcomes (attempt + 1) fuel
        (next.1, d :: next.2)
      else (.error e, [])

/-- Embedding of `GitHubInformation::send_with_retry`: run the loop from
attempt 0 with `MAX_RETRIES + 1` iterations available. -/
def send_with_retry (outcomes : Nat → SendOutcome) :
    Except TransportError RetryResponse × List Nat :=
  sendWithRetryGo outcomes 0 (MAX_RETRIES + 1)

/-- The pattern shared by the callers of `send_with_retry`
(`create_pull_request`, `create_custom_release`, `delete_release`): a
transport error propagates, and a returned response with a non-success
status is turned into a terminal API error. -/
def callWithRetry (outcomes : Nat → SendOutcome) :
    Except String RetryResponse :=
  match (send_with_retry outcomes).1 with
  | .error _ => .error "transport error"
  | .ok r =>
    if isSuccessStatus r.status then .ok r
    else .error "GitHub API error response"

/-! ## Configuration loading (release/config.rs) -/

/-- Embedding of `syntax::RepoConfiguration`. -/
structure RepoConfiguration where
  upstream_urls : List String
  rc_name : Option String
  release_name : Option String
  release_tag_name_format : Option String
deriving DecidableEq, Repr

/-- The `Default` instance of `RepoConfiguration`: all fields empty. -/
def RepoConfiguration.default : RepoConfiguration :=
  { upstream_urls := []
    rc_name := Option.none
    release_name := Option.none
    release_tag_name_format := Option.none }

/-- Embedding of `syntax::NpmConfiguration`. -/
structure NpmConfiguration where
  internal_dep_protocol : Option String
deriving DecidableEq, Repr

/-- The `Default` instance of `NpmConfiguration`. -/
def NpmConfiguration.default : NpmConfiguration :=
  { internal_dep_protocol := Option.none }

/-- Embedding of `syntax::ProjectConfiguration`. -/
structure ProjectConfiguration where
  ignore : Bool
deriving DecidableEq, Repr

/-- Embedding of `syntax::ReleaseConfiguration`, the `[release]` section of
the unified schema. -/
structure ReleaseConfiguration where
  repo : RepoConfiguration
  npm : NpmConfiguration
  projects : List (String × ProjectConfiguration)
deriving DecidableEq, Repr

/-- Embedding of `syntax::UnifiedConfiguration`: an optional `[release]`
section. -/
structure UnifiedConfiguration where
  release : Option ReleaseConfiguration
deriving DecidableEq, Repr

/-- Embedding of the legacy `syntax::SerializedConfiguration` schema with
its mandatory top-level `repo` section. -/
structure SerializedConfiguration where
  repo : RepoConfiguration
  npm : NpmConfiguration
  projects : List (String × ProjectConfiguration)
deriving DecidableEq, Repr

/-- Embedding of the runtime `ConfigurationFile`. -/
structure ConfigurationFile where
  repo : RepoConfiguration
  npm : NpmConfiguration
  projects : List (String × ProjectConfiguration)
deriving DecidableEq, Repr

/-- The `Default` instance of `ConfigurationFile`: default repo and npm
sections and an empty projects map. -/
def ConfigurationFile.default : ConfigurationFile :=
  { repo := RepoConfiguration.default
    npm := NpmConfiguration.default
    projects := [] }

/-- What reading the configuration file yields: the not-found open error,
any other open or read I/O error, or the file text. -/
inductive FileReadOutcome where
  | notFound
  | otherIoError
  | content (text : String)
deriving DecidableEq, Repr

/-- Embedding of `ConfigurationFile::get`. I/O and the external TOML
parser are abstracted: the file system is the `FileReadOutcome` and the
two `toml::from_str` calls are the two parser arguments, each returning
`none` where the Rust call returns `Err`. The unified schema is tried
first; when it parses and carries a `[release]` section it wins, otherwise
the legacy schema is the fallback and its parse failure is the error. -/
def ConfigurationFile.get (readOutcome : FileReadOutcome)
    (parseUnified : String → Option UnifiedConfiguration)
    (parseLegacy : String → Option SerializedConfiguration) :
    Except String ConfigurationFile :=
  match readOutcome with
  | .notFound => .ok ConfigurationFile.default
  | .otherIoError => .error "failed to open or read config file"
  | .content text =>
    let fromUnified :=
      match parseUnified text with
      | Option.some unified =>
        match unified.release with
        | Option.some rel =>
          Option.some { repo := rel.repo, npm := rel.npm,
                        projects := rel.projects : ConfigurationFile }
        | Option.none => Option.none
      | Option.none => Option.none
    match fromUnified with
    | Option.some cfg => .ok cfg
    | Option.none =>
      match parseLegacy text with
      | Option.some sercfg =>
        .ok { repo := sercfg.repo, npm := sercfg.npm,
              projects := sercfg.projects }
      | Option.none => .error "could not parse config file as TOML"

/-! ## Concrete fixtures used in closed statements -/

/-- A release entry fixture. -/
def fixtureRelease : ProjectRelease :=
  { name := "p", ecosystem := "e", previous_version := "0",
    new_version := "1", bump_type := "m", changelog := "c",
    tag_name := "v1", prefix_ := "" }

/-- The fixture release with every field that is outside the signature
payload changed, but the same name and new version. -/
def fixtureRelease2 : ProjectRelease :=
  { name := "p", ecosystem := "e2", previous_version := "9",
    new_version := "1", bump_type := "x", changelog := "d",
    tag_name := "zz", prefix_ := "q" }

/-- A manifest fixture with one release entry. -/
def fixtureManifest : ReleaseManifest :=
  { schema_version := "1.0", created_at := "t", created_by := "u",
    base_branch := "b", releases := [fixtureRelease],
    signature := Option.none }

/-- The manifest fixture with the same payload fields but a replaced
release entry and a stale stored signature. -/
def fixtureManifest2 : ReleaseManifest :=
  { schema_version := "1.0", created_at := "t", created_by := "u",
    base_branch := "b", releases := [fixtureRelease2],
    signature := Option.some "stale" }

/-- A mix.exs fixture whose version line carries no trailing comma (the
version is the last keyword-list element). -/
def mixFixture : String :=
  "defmodule Demo.MixProject do\n  def project do\n    [\n      app: :demo,\n      version: \"1.0.0\"\n    ]\n  end\nend\n"

/-- The mix.exs fixture with only the version value changed, which is what
the round-trip claim predicts for the rewrite output. -/
def mixFixtureClaimExpected : String :=
  "defmodule Demo.MixProject do\n  def project do\n    [\n      app: :demo,\n      version: \"1.0.1\"\n    ]\n  end\nend\n"

/-- A mix.exs fixture with no version line at all. -/
def mixFixtureNoVersion : String :=
  "defmodule Demo.MixProject do\n  def project do\n    [app: :demo]\n  end\nend\n"

/-- A canonical version line: whitespace indent, the normalized assignment,
a trailing comma and nothing else. -/
def versionLineC (indent v : String) : List Char :=
  indent.data ++ ("version: ").data ++ Char.ofNat 34 :: v.data ++
    [Char.ofNat 34, Char.ofNat 44]

/-- The sleep duration the specification predicts before retry `i + 1`:
the server-supplied retry-after value in milliseconds when the response
carries one, else the exponential backoff min(base times 2 to the attempt,
capped maximum). -/
def specSleep (o : SendOutcome) (i : Nat) : Nat :=
  match o with
  | .resp r =>
    match r.retryAfterSecs with
    | Option.some v => v * 1000
    | Option.none => min (1000 * 2 ^ i) 30000
  | .err _ => min (1000 * 2 ^ i) 30000

/-- A network fixture: every attempt yields a 404 response. -/
def outcomes404 : Nat → SendOutcome :=
  fun _ => .resp { status := 404, retryAfterSecs := Option.none }

/-- A network fixture: a request-construction transport error on the first
attempt, success afterwards. -/
def outcomesRequestErr : Nat → SendOutcome :=
  fun i =>
    if i = 0 then .err { isTimeout := false, isConnect := false, isRequest := true }
    else .resp { status := 200, retryAfterSecs := Option.none }

/-- A release-section fixture for configuration parsing. -/
def relFixture : ReleaseConfiguration :=
  { repo := { upstream_urls := ["git@example.com:o/r.git"],
              rc_name := Option.none, release_name := Option.none,
              release_tag_name_format := Option.none }
    npm := { internal_dep_protocol := Option.none }
    projects := [("p", { ignore := true })] }

/-! ## Theorems -/

/-- Helper: the loop body of `analyze_commit_messages` merges exactly the
claim-side classification of the message into the running
recommendation. -/
theorem analyzeStep_recommendation (a : CommitAnalysis) (m : String) :
    (analyzeStep a m).recommendation =
      a.recommendation.merge (claimClassify m) := by
  unfold analyzeStep claimClassify
  cases hp : ConventionalCommit.parse m with
  | none => rfl
  | some c =>
    by_cases hb : c.breaking = true
    · simp [hb]
    · have hb2 : c.breaking = false := by revert hb; cases c.breaking <;> simp
      by_cases hf : c.ctype = "feat"
      · simp [hb2, hf]
      · by_cases hfix : c.ctype = "fix"
        · simp [hb2, hf, hfix]
        · by_cases hperf : c.ctype = "perf"
          · simp [hb2, hf, hfix, hperf]
          · simp [hb2, hf, hfix, hperf]

/-- Helper: the loop body counts a message as "other" exactly when the
claim-side classification is None. -/
theorem analyzeStep_other (a : CommitAnalysis) (m : String) :
    (analyzeStep a m).other_count =
      a.other_count + (if claimClassify m = .none then 1 else 0) := by
  unfold analyzeStep claimClassify
  cases hp : ConventionalCommit.parse m with
  | none => simp
  | some c =>
    by_cases hb : c.breaking = true
    · simp [hb]
    · have hb2 : c.breaking = false := by revert hb; cases c.breaking <;> simp
      by_cases hf : c.ctype = "feat"
      · simp [hb2, hf]
      · by_cases hfix : c.ctype = "fix"
        · simp [hb2, hf, hfix]
        · by_cases hperf : c.ctype = "perf"
          · simp [hb2, hf, hfix, hperf]
          · simp [hb2, hf, hfix, hperf]

/-- Helper: the loop body never touches the total commit count. -/
theorem analyzeStep_total (a : CommitAnalysis) (m : String) :
    (analyzeStep a m).total_commits = a.total_commits := by
  unfold analyzeStep
  cases hp : ConventionalCommit.parse m with
  | none => rfl
  | some c =>
    by_cases hb : c.breaking = true
    · simp [hb]
    · have hb2 : c.breaking = false := by revert hb; cases c.breaking <;> simp
      by_cases hf : c.ctype = "feat"
      · simp [hb2, hf]
      · by_cases hfix : c.ctype = "fix"
        · simp [hb2, hf, hfix]
        · by_cases hperf : c.ctype = "perf"
          · simp [hb2, hf, hfix, hperf]
          · simp [hb2, hf, hfix, hperf]

/-- Helper: folding the loop body accumulates the merged recommendation,
the count of None-classified messages, and leaves the total unchanged. -/
theorem foldl_analyzeStep (msgs : List String) (a : CommitAnalysis) :
    (msgs.foldl analyzeStep a).recommendation =
      msgs.foldl (fun r m => r.merge (claimClassify m)) a.recommendation ∧
    (msgs.foldl analyzeStep a).other_count =
      a.other_count + (msgs.filter (fun m => claimClassify m = .none)).length ∧
    (msgs.foldl analyzeStep a).total_commits = a.total_commits := by
  induction msgs generalizing a with
  | nil => simp
  | cons m ms ih =>
    simp only [List.foldl_cons]
    refine ⟨?_, ?_, ?_⟩
    · rw [(ih _).1, analyzeStep_recommendation]
    · rw [(ih _).2.1, analyzeStep_other]
      by_cases h : claimClassify m = .none
      · simp [h, List.filter]
        omega
      · simp [h, List.filter]
    · rw [(ih _).2.2, analyzeStep_total]

/-- C2: `analyze_commit_messages` never returns an error; its
recommendation is the merge, over all commits, of the claim-side
classification (Major on a breaking marker regardless of type, else Minor
for feat, Patch for fix or perf, None otherwise — including messages that
fail conventional-commit parsing, which are counted as "other" rather than
propagated as errors). -/
theorem analyze_commit_messages_spec (msgs : List String) :
    ∃ a, analyze_commit_messages msgs = .ok a ∧
      a.recommendation =
        (msgs.map claimClassify).foldl BumpRecommendation.merge .none ∧
      a.other_count =
        (msgs.filter (fun m => claimClassify m = .none)).length ∧
      a.total_commits = msgs.length := by
  have h := foldl_analyzeStep msgs
    { recommendation := .none, total_commits := msgs.length, feat_count := 0,
      fix_count := 0, breaking_count := 0, other_count := 0 }
  refine ⟨_, rfl, ?_, ?_, ?_⟩
  · rw [List.foldl_map]
    exact h.1
  · simpa using h.2.1
  · simpa using h.2.2

/-- C1: merging bump recommendations is commutative and associative;
Major absorbs everything, None with None stays None, and the dominance
chain Major over Minor over Patch over None holds. -/
theorem merge_comm_assoc_dominance :
    (∀ x, BumpRecommendation.merge .major x = .major) ∧
    BumpRecommendation.merge .none .none = .none ∧
    (∀ x y, BumpRecommendation.merge x y = BumpRecommendation.merge y x) ∧
    (∀ x y z,
      BumpRecommendation.merge (BumpRecommendation.merge x y) z =
        BumpRecommendation.merge x (BumpRecommendation.merge y z)) ∧
    BumpRecommendation.merge .minor .patch = .minor ∧
    BumpRecommendation.merge .minor .none = .minor ∧
    BumpRecommendation.merge .patch .none = .patch :=
  ⟨fun x => by cases x <;> rfl, rfl,
   fun x y => by cases x <;> cases y <;> rfl,
   fun x y z => by cases x <;> cases y <;> cases z <;> rfl,
   rfl, rfl, rfl⟩

/-- C3: signing stores, over the cleared manifest, exactly the
`sha256=`-prefixed lowercase-hex HMAC-SHA256 of the canonical payload
(schema version, timestamp, author, base branch and the comma-joined
`name@new_version` list, colon-separated in that fixed order) under the
given secret, for every secret including those shorter than 32 bytes; and
any previously stored signature is irrelevant to the result. -/
theorem sign_spec (m : ReleaseManifest) (secret : String) :
    m.sign secret =
      { m with signature := Option.some ("sha256=" ++
          hexEncode (hmacSha256 (strBytes secret)
            (strBytes (specCanonicalPayload m)))) } ∧
    (∀ old : Option String,
      ReleaseManifest.sign { m with signature := old } secret =
        m.sign secret) := by
  constructor
  · have hp : ReleaseManifest.signature_payload
        { m with signature := Option.none } = specCanonicalPayload m := by
      simp [ReleaseManifest.signature_payload, specCanonicalPayload,
        joinWith, String.append_assoc]
    simp [ReleaseManifest.sign, compute_hmac_signature, hp]
  · intro old
    rfl

/-- C7: the tag name of a constructed `ProjectRelease` is the version
prefixed with `v` when the prefix is empty, and the prefix, a slash, and
the v-prefixed version otherwise; in particular for the two concrete
scenarios of the claim. -/
theorem tag_name_spec (name eco pv nv bt cl pfx : String) :
    ((ProjectRelease.new name eco pv nv bt cl pfx).tag_name =
      if pfx = "" then "v" ++ nv else pfx ++ "/v" ++ nv) ∧
    (ProjectRelease.new "core" "cargo" "1.0.0" "2.0.0" "major" "x"
      "packages/core").tag_name = "packages/core/v2.0.0" ∧
    (ProjectRelease.new "core" "cargo" "1.0.0" "2.0.0" "major" "x"
      "").tag_name = "v2.0.0" := by
  refine ⟨?_, by decide, by decide⟩
  unfold ProjectRelease.new
  by_cases h : pfx = ""
  · subst h
    simp [show ("" : String).isEmpty = true from rfl]
  · have hne : pfx.isEmpty = false := by
      rw [← Bool.not_eq_true, String.isEmpty_iff]
      exact h
    simp [h, hne]

/-- C9: the signature depends only on the schema version, timestamp,
author, base branch, and each release entry's name and new version: two
manifests agreeing there get the same signature from the same secret,
whatever their other release fields or stored signatures. -/
theorem signature_ignores_nonpayload_fields (m1 m2 : ReleaseManifest)
    (secret : String)
    (h1 : m1.schema_version = m2.schema_version)
    (h2 : m1.created_at = m2.created_at)
    (h3 : m1.created_by = m2.created_by)
    (h4 : m1.base_branch = m2.base_branch)
    (h5 : m1.releases.map (fun r => (r.name, r.new_version)) =
      m2.releases.map (fun r => (r.name, r.new_version))) :
    (m1.sign secret).signature = (m2.sign secret).signature := by
  have hjoin : m1.releases.map (fun r => r.name ++ "@" ++ r.new_version) =
      m2.releases.map (fun r => r.name ++ "@" ++ r.new_version) := by
    have h6 := congrArg (List.map (fun p : String × String => p.1 ++ "@" ++ p.2)) h5
    simpa [List.map_map, Function.comp] using h6
  have hp : ReleaseManifest.signature_payload { m1 with signature := Option.none } =
      ReleaseManifest.signature_payload { m2 with signature := Option.none } := by
    simp [ReleaseManifest.signature_payload, h1, h2, h3, h4, hjoin]
  simp [ReleaseManifest.sign, compute_hmac_signature, hp]

/-- Witness for C9: the two manifest fixtures agree on the payload fields
and differ in ecosystem, previous version, bump type, changelog, tag name,
prefix and stored signature, yet sign identically. -/
theorem signature_ignores_nonpayload_fields_witness :
    (fixtureManifest.sign "k").signature =
      (fixtureManifest2.sign "k").signature :=
  signature_ignores_nonpayload_fields fixtureManifest fixtureManifest2 "k"
    rfl rfl rfl rfl (by decide)

/-- C10: loading the configuration returns the built-in default (empty
repo, npm and projects sections) when the file is absent, fails on any
other I/O error, and otherwise tries the unified `[release]` schema first
and falls back to the legacy top-level schema. -/
theorem configuration_get_spec (pu : String → Option UnifiedConfiguration)
    (pl : String → Option SerializedConfiguration) :
    (ConfigurationFile.get .notFound pu pl = .ok ConfigurationFile.default ∧
     ConfigurationFile.default =
       { repo := { upstream_urls := [], rc_name := Option.none,
                   release_name := Option.none,
                   release_tag_name_format := Option.none }
         npm := { internal_dep_protocol := Option.none }
         projects := [] }) ∧
    (ConfigurationFile.get .otherIoError pu pl =
      .error "failed to open or read config file") ∧
    (∀ text rel, pu text = Option.some { release := Option.some rel } →
      ConfigurationFile.get (.content text) pu pl =
        .ok { repo := rel.repo, npm := rel.npm, projects := rel.projects }) ∧
    (∀ text leg,
      (pu text = Option.none ∨
        pu text = Option.some { release := Option.none }) →
      pl text = Option.some leg →
      ConfigurationFile.get (.content text) pu pl =
        .ok { repo := leg.repo, npm := leg.npm, projects := leg.projects }) ∧
    (∀ text,
      (pu text = Option.none ∨
        pu text = Option.some { release := Option.none }) →
      pl text = Option.none →
      ConfigurationFile.get (.content text) pu pl =
        .error "could not parse config file as TOML") := by
  refine ⟨⟨rfl, rfl⟩, rfl, ?_, ?_, ?_⟩
  · intro text rel h
    simp [ConfigurationFile.get, h]
  · intro text leg h hleg
    rcases h with h | h <;> simp [ConfigurationFile.get, h, hleg]
  · intro text h hleg
    rcases h with h | h <;> simp [ConfigurationFile.get, h, hleg]

/-- Witness for C10: a parser that yields a `[release]` section makes the
unified schema win even when the legacy parser would fail. -/
theorem configuration_get_spec_witness :
    ConfigurationFile.get (.content "x")
      (fun _ => Option.some { release := Option.some relFixture })
      (fun _ => Option.none) =
      .ok { repo := relFixture.repo, npm := relFixture.npm,
            projects := relFixture.projects } :=
  (configuration_get_spec
    (fun _ => Option.some { release := Option.some relFixture })
    (fun _ => Option.none)).2.2.1 "x" relFixture rfl

/-- Counterexample to C4: two different secret strings can produce the
same signature, because HMAC zero-pads the key to its 64-byte block: a
secret and the same secret extended by a NUL byte yield the same padded
key. -/
theorem sign_secret_collision :
    ("a" : String) ≠ "a\x00" ∧
    (fixtureManifest.sign "a").signature =
      (fixtureManifest.sign "a\x00").signature := by
  constructor
  · decide
  · have hk : hmacKey (strBytes "a") = hmacKey (strBytes "a\x00") := by decide
    simp only [ReleaseManifest.sign, compute_hmac_signature, hmacSha256, hk]

set_option maxRecDepth 100000 in
set_option maxHeartbeats 2000000 in
/-- C4 as amended: for secrets that stay distinct after the HMAC key
padding — concretely, the two secrets of the repository's own test — the
signatures differ, and re-signing after a change to the timestamp, the
base branch, or a release entry's new version changes the signature. -/
theorem sign_sensitivity_concrete :
    (fixtureManifest.sign "secret-one").signature ≠
      (fixtureManifest.sign "secret-two").signature ∧
    (ReleaseManifest.sign { fixtureManifest with created_at := "t2" }
        "secret-one").signature ≠
      (fixtureManifest.sign "secret-one").signature ∧
    (ReleaseManifest.sign { fixtureManifest with base_branch := "b2" }
        "secret-one").signature ≠
      (fixtureManifest.sign "secret-one").signature ∧
    (ReleaseManifest.sign
        { fixtureManifest with
          releases := [{ fixtureRelease with new_version := "2" }] }
        "secret-one").signature ≠
      (fixtureManifest.sign "secret-one").signature := by
  refine ⟨by decide, by decide, by decide, by decide⟩

/-- Counterexample to C5: on a mix.exs whose version line carries no
trailing comma, the version is successfully extracted, but the rewriter
emits a normalized line with a trailing comma, so the output is not
byte-identical to the original outside the version value. -/
theorem mix_rewrite_not_roundtrip :
    extract_version mixFixture = Option.some "1.0.0" ∧
    mixRewriteContent "1.0.1" mixFixture ≠ mixFixtureClaimExpected := by
  constructor
  · decide
  · decide

/-- C5 as amended: when the version line is canonical — whitespace indent,
a double-quoted version, a trailing comma and nothing else — and the file
is newline-terminated with newline-free lines, the rewrite output is the
original content with exactly the version value replaced. -/
theorem mix_rewrite_roundtrip (indent v1 v2 contents : String)
    (pre post : List (List Char))
    (hlines : rustLinesC contents.data =
      pre ++ versionLineC indent v1 :: post)
    (_hjoin : contents.data =
      ((pre ++ versionLineC indent v1 :: post).map
        (fun l => l ++ [Char.ofNat 10])).flatten)
    (hpre : ∀ l ∈ pre,
      startsWithChars ("version:").data (trimChars l) = false)
    (hpost : ∀ l ∈ post,
      startsWithChars ("version:").data (trimChars l) = false)
    (hstart : startsWithChars ("version:").data
      (trimChars (versionLineC indent v1)) = true)
    (hindent : (versionLineC indent v1).takeWhile isWsChar = indent.data) :
    (mixRewriteContent v2 contents).data =
      ((pre ++ versionLineC indent v2 :: post).map
        (fun l => l ++ [Char.ofNat 10])).flatten := by
  have hmk : (mixRewriteContent v2 contents).data =
      ((rustLinesC contents.data).map (mixRewriteLine v2)).flatten := rfl
  rw [hmk, hlines, List.map_append, List.map_cons, List.map_append,
    List.map_cons]
  have hp : pre.map (mixRewriteLine v2) =
      pre.map (fun l => l ++ [Char.ofNat 10]) :=
    List.map_congr_left (fun l hl => by
      unfold mixRewriteLine
      rw [hpre l hl]
      simp)
  have hq : post.map (mixRewriteLine v2) =
      post.map (fun l => l ++ [Char.ofNat 10]) :=
    List.map_congr_left (fun l hl => by
      unfold mixRewriteLine
      rw [hpost l hl]
      simp)
  have hv : mixRewriteLine v2 (versionLineC indent v1) =
      versionLineC indent v2 ++ [Char.ofNat 10] := by
    unfold mixRewriteLine
    rw [hstart, hindent]
    simp [versionLineC, List.append_assoc]
  rw [hp, hq, hv]

/-- Witness fixture for the amended C5: a canonical mix.exs. -/
def wPre : List (List Char) := [("defmodule D do").data]

/-- Witness fixture for the amended C5: the closing line. -/
def wPost : List (List Char) := [("end").data]

/-- Witness fixture for the amended C5: the file content. -/
def wContents : String := "defmodule D do\n  version: \"1.0.0\",\nend\n"

/-- Witness for the amended C5 at the concrete canonical fixture. -/
theorem mix_rewrite_roundtrip_witness :
    (mixRewriteContent "2.0.0" wContents).data =
      ((wPre ++ versionLineC "  " "2.0.0" :: wPost).map
        (fun l => l ++ [Char.ofNat 10])).flatten :=
  mix_rewrite_roundtrip "  " "1.0.0" "2.0.0" wContents wPre wPost
    (by decide) (by decide) (by decide) (by decide) (by decide) (by decide)

/-- C6: on a mix.exs with no version line at rewrite time, the rewriter
does not fail: the content transformation is the identity and the
operation returns Ok, leaving the manifest's declared version untouched
while the in-memory version has moved on. The spec requires a fatal
per-project error here. -/
theorem mix_rewrite_silent_on_missing_version :
    extract_version mixFixtureNoVersion = Option.none ∧
    mixRewriteContent "1.1.0" mixFixtureNoVersion = mixFixtureNoVersion ∧
    mixRewrite "1.1.0" mixFixtureNoVersion = .ok mixFixtureNoVersion := by
  refine ⟨by decide, by decide, ?_⟩
  exact congrArg Except.ok (by decide)


/-- Helper: every retryable HTTP status is outside the 2xx success
range. -/
theorem retryable_not_success (s : Nat) (h : is_retryable_status s = true) :
    isSuccessStatus s = false := by
  simp [is_retryable_status] at h
  simp [isSuccessStatus]
  omega

/-- Helper: the retry loop takes at most `MAX_RETRIES - attempt` further
sleeps when enough fuel remains. -/
theorem sendWithRetryGo_len (outcomes : Nat → SendOutcome) :
    ∀ fuel attempt, MAX_RETRIES < attempt + fuel →
      (sendWithRetryGo outcomes attempt fuel).2.length ≤ MAX_RETRIES - attempt := by
  intro fuel
  induction fuel with
  | zero => intro attempt h; simp [sendWithRetryGo]
  | succ n ih =>
    intro attempt h
    cases ho : outcomes attempt with
    | resp r =>
      simp only [sendWithRetryGo, ho]
      split_ifs with h1 h2
      · simp
      · have hlen := ih (attempt + 1) (by omega)
        simp only [List.length_cons]
        unfold MAX_RETRIES at h2 hlen ⊢
        omega
      · simp
    | err e =>
      simp only [sendWithRetryGo, ho]
      split_ifs with h1
      · have hlen := ih (attempt + 1) (by omega)
        obtain ⟨ha, _⟩ := h1
        simp only [List.length_cons]
        unfold MAX_RETRIES at ha hlen ⊢
        omega
      · simp

/-- Helper: the i-th sleep of the retry loop is the retry-after value in
milliseconds when the i-th outcome carries one, else the capped
exponential backoff for that attempt index. -/
theorem sendWithRetryGo_sleeps (outcomes : Nat → SendOutcome) :
    ∀ fuel attempt i, i < (sendWithRetryGo outcomes attempt fuel).2.length →
      (sendWithRetryGo outcomes attempt fuel).2.getD i 0 =
        specSleep (outcomes (attempt + i)) (attempt + i) := by
  intro fuel
  induction fuel with
  | zero => intro attempt i h; simp [sendWithRetryGo] at h
  | succ n ih =>
    intro attempt i h
    cases ho : outcomes attempt with
    | resp r =>
      simp only [sendWithRetryGo, ho] at h ⊢
      split_ifs at h ⊢ with h1 h2
      · simp at h
      · cases i with
        | zero =>
          simp only [List.getD_cons_zero, Nat.add_zero, ho]
          cases hra : r.retryAfterSecs <;>
            simp [specSleep, backoffFor, calculate_backoff, hra,
              INITIAL_BACKOFF_MS, MAX_BACKOFF_MS]
        | succ j =>
          simp only [List.getD_cons_succ]
          have hlen : j < (sendWithRetryGo outcomes (attempt + 1) n).2.length := by
            simp only [List.length_cons] at h
            omega
          have hj := ih (attempt + 1) j hlen
          have harith : attempt + 1 + j = attempt + (j + 1) := by omega
          rw [hj, harith]
      · simp at h
    | err e =>
      simp only [sendWithRetryGo, ho] at h ⊢
      split_ifs at h ⊢ with h1
      · cases i with
        | zero =>
          simp only [List.getD_cons_zero, Nat.add_zero, ho]
          simp [specSleep, calculate_backoff, INITIAL_BACKOFF_MS, MAX_BACKOFF_MS]
        | succ j =>
          simp only [List.getD_cons_succ]
          have hlen : j < (sendWithRetryGo outcomes (attempt + 1) n).2.length := by
            simp only [List.length_cons] at h
            omega
          have hj := ih (attempt + 1) j hlen
          have harith : attempt + 1 + j = attempt + (j + 1) := by omega
          rw [hj, harith]
      · simp at h

/-- C8 as amended: GitHub calls are retried only for the five retryable
status codes and for transport errors flagged as timeout, connection, or
request errors; attempts are bounded by one plus `MAX_RETRIES`; each
backoff is the server-supplied retry-after when present, else
min(base times two to the attempt, capped maximum); a non-retryable
response or transport error is surfaced on the first attempt; and
exhausted retries end in a terminal error at the call sites rather than
being swallowed. -/
theorem send_with_retry_policy (outcomes : Nat → SendOutcome) :
    (∀ s, is_retryable_status s = true ↔
      (s = 429 ∨ s = 500 ∨ s = 502 ∨ s = 503 ∨ s = 504)) ∧
    (∀ e, is_retryable_error e = (e.isTimeout || e.isConnect || e.isRequest)) ∧
    (∀ a b, calculate_backoff a b = min (b * 2 ^ a) 30000) ∧
    (send_with_retry outcomes).2.length ≤ MAX_RETRIES ∧
    (∀ i, i < (send_with_retry outcomes).2.length →
      (send_with_retry outcomes).2.getD i 0 = specSleep (outcomes i) i) ∧
    (∀ r : RetryResponse, outcomes 0 = SendOutcome.resp r → is_retryable_status r.status = false →
      send_with_retry outcomes = (.ok r, []) ∧
      (isSuccessStatus r.status = false →
        callWithRetry outcomes = .error "GitHub API error response")) ∧
    (∀ e : TransportError, outcomes 0 = SendOutcome.err e → is_retryable_error e = false →
      send_with_retry outcomes = (.error e, []) ∧
      callWithRetry outcomes = .error "transport error") ∧
    (∀ e0 e1 e2 e3 : TransportError,
      outcomes 0 = SendOutcome.err e0 → outcomes 1 = SendOutcome.err e1 →
      outcomes 2 = SendOutcome.err e2 → outcomes 3 = SendOutcome.err e3 →
      is_retryable_error e0 = true → is_retryable_error e1 = true →
      is_retryable_error e2 = true → is_retryable_error e3 = true →
      (send_with_retry outcomes).1 = .error e3 ∧
      callWithRetry outcomes = .error "transport error") ∧
    (∀ r0 r1 r2 r3 : RetryResponse,
      outcomes 0 = SendOutcome.resp r0 → outcomes 1 = SendOutcome.resp r1 →
      outcomes 2 = SendOutcome.resp r2 → outcomes 3 = SendOutcome.resp r3 →
      is_retryable_status r0.status = true → is_retryable_status r1.status = true →
      is_retryable_status r2.status = true → is_retryable_status r3.status = true →
      (send_with_retry outcomes).1 = .ok r3 ∧
      callWithRetry outcomes = .error "GitHub API error response") := by
  refine ⟨?_, ?_, ?_, ?_, ?_, ?_, ?_, ?_, ?_⟩
  · intro s
    simp [is_retryable_status]
  · intro e
    rfl
  · intro a b
    rfl
  · simpa using sendWithRetryGo_len outcomes (MAX_RETRIES + 1) 0 (by simp)
  · intro i h
    simpa using sendWithRetryGo_sleeps outcomes (MAX_RETRIES + 1) 0 i h
  · intro r h0 hnr
    have hsend : send_with_retry outcomes = (.ok r, []) := by
      simp [send_with_retry, sendWithRetryGo, h0, hnr]
    refine ⟨hsend, fun hns => ?_⟩
    simp [callWithRetry, hsend, hns]
  · intro e h0 hnr
    have hsend : send_with_retry outcomes = (.error e, []) := by
      simp [send_with_retry, sendWithRetryGo, h0, hnr]
    refine ⟨hsend, ?_⟩
    simp [callWithRetry, hsend]
  · intro e0 e1 e2 e3 h0 h1 h2 h3 hr0 hr1 hr2 hr3
    have hsend : (send_with_retry outcomes).1 = .error e3 := by
      simp [send_with_retry, sendWithRetryGo, h0, h1, h2, h3, hr0, hr1, hr2,
        hr3, MAX_RETRIES]
    refine ⟨hsend, ?_⟩
    simp only [callWithRetry, hsend]
  · intro r0 r1 r2 r3 h0 h1 h2 h3 hr0 hr1 hr2 hr3
    have hs0 := retryable_not_success _ hr0
    have hs1 := retryable_not_success _ hr1
    have hs2 := retryable_not_success _ hr2
    have hs3 := retryable_not_success _ hr3
    have hsend : (send_with_retry outcomes).1 = .ok r3 := by
      simp [send_with_retry, sendWithRetryGo, h0, h1, h2, h3, hr0, hr1, hr2,
        hr3, hs0, hs1, hs2, hs3, MAX_RETRIES]
    refine ⟨hsend, ?_⟩
    simp [callWithRetry, hsend, hs3]

/-- Witness for the amended C8: a 404 response is returned on the first
attempt with no sleeps, and the caller turns it into a terminal error. -/
theorem send_with_retry_policy_witness :
    send_with_retry outcomes404 =
      (.ok { status := 404, retryAfterSecs := Option.none }, []) ∧
    callWithRetry outcomes404 = .error "GitHub API error response" := by
  have h := (send_with_retry_policy outcomes404).2.2.2.2.2.1
    { status := 404, retryAfterSecs := Option.none } rfl (by decide)
  exact ⟨h.1, h.2 (by decide)⟩

/-- Counterexample to C8 as stated: a transport error that is neither a
timeout nor a connection error (reqwest's request-error class) is retried
rather than surfaced immediately — the call sleeps once and returns the
second attempt's success. -/
theorem send_with_retry_request_error_retried :
    outcomesRequestErr 0 = SendOutcome.err
      { isTimeout := false, isConnect := false, isRequest := true } ∧
    send_with_retry outcomesRequestErr =
      (.ok { status := 200, retryAfterSecs := Option.none }, [1000]) := by
  constructor
  · rfl
  · rfl


end Clikd
